import Mathlib

/-!
Verification of the JobPulse aggregation / classification / filter pipeline.

The definitions below are a shallow embedding of the TypeScript sources:
  - `src/app/api/jobs/route.ts`  (the query-parameterized API route),
  - the client-side filtering pipeline variant (`filteredJobs`),
  - the try/catch route variant with the degraded error envelope,
  - the unfiltered route variant.

Modelling conventions:
  - JavaScript strings are Lean `String`s; the empty string stands for an
    absent/falsy upstream string field wherever the code only observes the
    field through `||` fallbacks or direct copies (for `||`, `undefined` and
    `""` are indistinguishable).
  - Optional fields that the code tests for presence are `Option`s.
  - A `posted` date string is modelled by its parsed timestamp
    (`new Date(s).getTime()`), an `Option Int`; `none` stands for an
    absent/empty date, which is falsy in the comparator.
  - `fetch`/JSON-parse outcomes are `Except String payload`: the `.error`
    case models a network failure, non-success status or a payload whose
    shape makes the mapping code throw (all are caught and yield `[]`).
  - `Array.prototype.sort(cmp)` is modelled by a stable comparison sort
    (insertion sort); ECMAScript requires the sort to be stable, and for a
    consistent comparator the stable sorted permutation is unique.
  - `String.prototype.toLowerCase` is modelled on the ASCII range (every
    keyword literal in the sources is ASCII).
-/

namespace JobPulse

/-- Canonical Job record (the shared `Job` interface of all variants).
`tags` is a plain list: the code only reads `tags` through
`tags?.join/map/some`, under which a missing array and `[]` coincide. -/
structure Job where
  id : String
  title : String
  company : String
  location : String
  type : Option String
  salary : Option String
  url : String
  source : String
  posted : Option Int
  tags : List String
  deriving DecidableEq, Repr

/-- Per-adapter contribution counts of the response envelope. -/
structure SourceCounts where
  remoteok : Nat
  remotive : Nat
  arbeitnow : Nat
  jobicy : Nat
  deriving DecidableEq, Repr

/-- Response envelope `{ jobs, total, sources }`; `error` is present only in
the degraded branch of the try/catch route variant. -/
structure Envelope where
  jobs : List Job
  total : Nat
  sources : SourceCounts
  error : Option String := none
  deriving DecidableEq, Repr

/-- ASCII `toLowerCase` on one character. -/
def lowerChar (c : Char) : Char :=
  if 'A' ≤ c && c ≤ 'Z' then Char.ofNat (c.toNat + 32) else c

/-- Models `s.toLowerCase()` (all keyword literals are ASCII). -/
def lowerStr (s : String) : String :=
  String.mk (s.data.map lowerChar)

/-- Does `l` start with `sub`? -/
def listStartsWith : List Char → List Char → Bool
  | _, [] => true
  | [], _ :: _ => false
  | c :: cs, d :: ds => c == d && listStartsWith cs ds

/-- Does `l` contain `sub` as a contiguous run? -/
def hasSubstr : List Char → List Char → Bool
  | [], sub => sub.isEmpty
  | c :: cs, sub => listStartsWith (c :: cs) sub || hasSubstr cs sub

/-- Models `s.includes(sub)` on JavaScript strings. -/
def jsIncludes (s sub : String) : Bool :=
  hasSubstr s.data sub.data

/-- Models `s || d` for JavaScript strings (`""`/absent is falsy). -/
def orDefault (s d : String) : String :=
  if s = "" then d else s

/-- Truthiness of an optional JavaScript number (`0`/absent are falsy). -/
def truthyNum (o : Option Nat) : Bool :=
  match o with
  | some n => n != 0
  | none => false

/-- Data-related keywords of the API route (route.ts). -/
def DATA_KEYWORDS : List String :=
  ["data", "analyst", "analytics", "scientist", "science", "engineer",
   "sql", "python", "tableau", "power bi", "excel", "statistics",
   "machine learning", "ml", "ai", "database", "etl", "bi ",
   "business intelligence", "visualization", "reporting", "insights"]

/-- Entry level indicators of the API route (route.ts). -/
def ENTRY_LEVEL_KEYWORDS : List String :=
  ["junior", "entry", "associate", "graduate", "intern", "trainee",
   "early career", "new grad", "fresher", "level 1", "l1", "i ", "i,",
   "0-2 years", "1-2 years", "0-1 year", "no experience"]

/-- Senior indicators of the API route (route.ts). -/
def SENIOR_KEYWORDS : List String :=
  ["senior", "sr.", "sr ", "lead", "principal", "staff", "manager",
   "director", "head of", "vp", "chief", "5+ years", "7+ years", "10+ years"]

/-- Lower-cased `title` + `" "` + lower-cased joined `tags`, the text
`isDataRole` scans (route.ts lines 38-44). -/
def dataRoleText (j : Job) : String :=
  lowerStr j.title ++ " " ++ String.intercalate " " (j.tags.map lowerStr)

/-- `isDataRole` of route.ts: any data keyword occurs in title+tags. -/
def isDataRole (j : Job) : Bool :=
  DATA_KEYWORDS.any (fun keyword => jsIncludes (dataRoleText j) keyword)

/-- Lower-cased `title` + `" "` + lower-cased `type`, the text
`isEntryLevel` scans (route.ts lines 46-49). -/
def seniorityText (j : Job) : String :=
  lowerStr j.title ++ " " ++ lowerStr (j.type.getD "")

/-- `isEntryLevel` of route.ts lines 46-62: senior keywords exclude;
otherwise explicit entry keywords, or absence of any level indicator,
classify as entry level. -/
def isEntryLevel (j : Job) : Bool :=
  let combined := seniorityText j
  if SENIOR_KEYWORDS.any (fun keyword => jsIncludes combined keyword) then
    false
  else
    let isExplicitlyEntry := ENTRY_LEVEL_KEYWORDS.any (fun keyword => jsIncludes combined keyword)
    let hasNoLevelIndicator :=
      !(SENIOR_KEYWORDS.any (fun keyword => jsIncludes combined keyword)) &&
      !(jsIncludes combined "mid") && !(jsIncludes combined "intermediate")
    isExplicitlyEntry || hasNoLevelIndicator

/-! ### Source adapters (route.ts lines 64-169)

Each upstream record type lists exactly the fields the mapping code reads.
String fields read only through `||` fallbacks or copied verbatim are plain
`String`s (`""` = absent); fields the code may leave `undefined` on the
produced Job are `Option`s. -/

/-- Upstream RemoteOK record fields read by `fetchRemoteOK` (`job.id` is
interpolated into template strings, so it is modelled as the interpolated
text). -/
structure RemoteOKRecord where
  id : String
  position : String
  company : String
  location : String
  salary_min : Option Nat
  salary_max : Option Nat
  url : String
  date : Option Int
  tags : Option (List String)
  deriving DecidableEq, Repr

/-- Mapping of one RemoteOK record (route.ts lines 73-83). -/
def remoteOKMap (j : RemoteOKRecord) : Job :=
  { id := "remoteok-" ++ j.id
    title := orDefault j.position "Unknown"
    company := orDefault j.company "Unknown"
    location := orDefault j.location "Remote"
    type := none
    salary := if truthyNum j.salary_min && truthyNum j.salary_max then
        some ("$" ++ toString ((j.salary_min).getD 0) ++ "-" ++ toString ((j.salary_max).getD 0))
      else none
    url := orDefault j.url ("https://remoteok.com/l/" ++ j.id)
    source := "RemoteOK"
    posted := j.date
    tags := j.tags.getD [] }

/-- `fetchRemoteOK` of route.ts: on any fetch/parse failure return `[]`,
otherwise map `data.slice(1, 100)`. -/
def fetchRemoteOK : Except String (List RemoteOKRecord) → List Job
  | .error _ => []
  | .ok data => ((data.drop 1).take 99).map remoteOKMap

/-- Upstream Remotive record fields read by `fetchRemotive`. -/
structure RemotiveRecord where
  id : String
  title : String
  company_name : String
  candidate_required_location : String
  job_type : Option String
  salary : String
  url : String
  publication_date : Option Int
  tags : Option (List String)
  deriving DecidableEq, Repr

/-- Mapping of one Remotive record (route.ts lines 98-109): `title`,
`company_name` and `url` are copied verbatim, with no default. -/
def remotiveMap (j : RemotiveRecord) : Job :=
  { id := "remotive-" ++ j.id
    title := j.title
    company := j.company_name
    location := orDefault j.candidate_required_location "Remote"
    type := j.job_type
    salary := if j.salary = "" then none else some j.salary
    url := j.url
    source := "Remotive"
    posted := j.publication_date
    tags := j.tags.getD [] }

/-- `fetchRemotive` of route.ts: failure yields `[]`, otherwise map
`data.jobs`. -/
def fetchRemotive : Except String (List RemotiveRecord) → List Job
  | .error _ => []
  | .ok data => data.map remotiveMap

/-- Upstream Arbeitnow record fields read by `fetchArbeitnow`. -/
structure ArbeitnowRecord where
  slug : String
  title : String
  company_name : String
  location : String
  remote : Bool
  url : String
  created_at : Option Int
  tags : Option (List String)
  deriving DecidableEq, Repr

/-- Mapping of one Arbeitnow record (route.ts lines 124-134): `title`,
`company_name` and `url` are copied verbatim, with no default. -/
def arbeitnowMap (j : ArbeitnowRecord) : Job :=
  { id := "arbeitnow-" ++ j.slug
    title := j.title
    company := j.company_name
    location := orDefault j.location "Remote"
    type := some (if j.remote then "Remote" else "On-site")
    salary := none
    url := j.url
    source := "Arbeitnow"
    posted := j.created_at
    tags := j.tags.getD [] }

/-- `fetchArbeitnow` of route.ts: failure yields `[]`, otherwise map
`data.data.slice(0, 100)`. -/
def fetchArbeitnow : Except String (List ArbeitnowRecord) → List Job
  | .error _ => []
  | .ok data => (data.take 100).map arbeitnowMap

/-- Upstream Jobicy record fields read by `fetchJobicy`. -/
structure JobicyRecord where
  id : String
  jobTitle : String
  companyName : String
  jobGeo : String
  jobType : Option String
  annualSalaryMin : Option Nat
  annualSalaryMax : Option Nat
  url : String
  pubDate : Option Int
  jobIndustry : String
  deriving DecidableEq, Repr

/-- Mapping of one Jobicy record (route.ts lines 151-164): `jobTitle`,
`companyName` and `url` are copied verbatim, with no default. -/
def jobicyMap (j : JobicyRecord) : Job :=
  { id := "jobicy-" ++ j.id
    title := j.jobTitle
    company := j.companyName
    location := orDefault j.jobGeo "Remote"
    type := j.jobType
    salary := if truthyNum j.annualSalaryMin && truthyNum j.annualSalaryMax then
        some ("$" ++ toString ((j.annualSalaryMin).getD 0) ++ "-" ++ toString ((j.annualSalaryMax).getD 0))
      else none
    url := j.url
    source := "Jobicy"
    posted := j.pubDate
    tags := if j.jobIndustry ≠ "" then [j.jobIndustry] else [] }

/-- `fetchJobicy` of route.ts: failure yields `[]`; `if (!data.jobs) return []`
is the `.ok none` case; otherwise map `data.jobs`. -/
def fetchJobicy : Except String (Option (List JobicyRecord)) → List Job
  | .error _ => []
  | .ok none => []
  | .ok (some jobs) => jobs.map jobicyMap

/-! ### The sort step (route.ts lines 215-219) -/

/-- The comparator passed to `allJobs.sort` (route.ts lines 216-219): a
missing `posted` on either side yields `0`, otherwise
`new Date(b.posted).getTime() - new Date(a.posted).getTime()`. -/
def jsCmp (a b : Job) : Int :=
  match a.posted, b.posted with
  | some x, some y => y - x
  | _, _ => 0

/-- `a` may be placed before `b` by the sort: `cmp(a,b) <= 0`. -/
def jsSortLe (a b : Job) : Bool :=
  jsCmp a b ≤ 0

/-- Stable insertion of `x` into `l`: `x` goes in front of the first
element it may precede. -/
def stableInsert (le : α → α → Bool) (x : α) : List α → List α
  | [] => [x]
  | y :: ys => if le x y then x :: y :: ys else y :: stableInsert le x ys

/-- Stable comparison sort (insertion sort): models the stability guarantee
of `Array.prototype.sort`. -/
def stableSort (le : α → α → Bool) : List α → List α
  | [] => []
  | x :: xs => stableInsert le x (stableSort le xs)

/-- The recency sort of the route: `allJobs.sort(cmp)`. -/
def sortJobs (l : List Job) : List Job :=
  stableSort jsSortLe l

/-! ### Query parameters and filter pipeline of route.ts `GET` -/

/-- The recognized query-string parameters; `none` models an absent
parameter (`searchParams.get` returning `null`). -/
structure RouteParams where
  q : Option String
  location : Option String
  source : Option String
  entry : Option String
  deriving DecidableEq, Repr

/-- Models `searchParams.get("q")?.toLowerCase() || ""` (route.ts line 173). -/
def routeQuery (p : RouteParams) : String :=
  match p.q with
  | some s => lowerStr s
  | none => ""

/-- Models `searchParams.get("location")?.toLowerCase() || ""` (route.ts line 174). -/
def routeLocation (p : RouteParams) : String :=
  match p.location with
  | some s => lowerStr s
  | none => ""

/-- Models `searchParams.get("source") || ""` (route.ts line 175). -/
def routeSource (p : RouteParams) : String :=
  p.source.getD ""

/-- Models the test of route.ts line 176: entry filtering is on unless the
entry parameter is exactly the string "false". -/
def entryOnly (p : RouteParams) : Bool :=
  p.entry != some "false"

/-- The query-filter predicate (route.ts lines 198-202). -/
def queryStage (q : String) (job : Job) : Bool :=
  jsIncludes (lowerStr job.title) q ||
  jsIncludes (lowerStr job.company) q ||
  job.tags.any (fun tag => jsIncludes (lowerStr tag) q)

/-- The location-filter predicate (route.ts lines 206-208). -/
def locationStage (loc : String) (job : Job) : Bool :=
  jsIncludes (lowerStr job.location) loc

/-- The source-filter predicate (route.ts line 212). -/
def sourceStage (src : String) (job : Job) : Bool :=
  job.source == src

/-- The filter chain of route.ts lines 188-213, before the sort: the
data-role filter is unconditional; the entry/query/location/source stages
run only when their parameter is active. -/
def routeFilteredPreSort (p : RouteParams) (allJobs : List Job) : List Job :=
  let jobs := allJobs.filter (fun job => isDataRole job)
  let jobs := if entryOnly p then jobs.filter (fun job => isEntryLevel job) else jobs
  let jobs := if routeQuery p ≠ "" then jobs.filter (queryStage (routeQuery p)) else jobs
  let jobs := if routeLocation p ≠ "" then jobs.filter (locationStage (routeLocation p)) else jobs
  let jobs := if routeSource p ≠ "" then jobs.filter (sourceStage (routeSource p)) else jobs
  jobs

/-- Filters followed by the recency sort (route.ts lines 186-219). -/
def routePipeline (p : RouteParams) (l : List Job) : List Job :=
  sortJobs (routeFilteredPreSort p l)

/-- The `GET` handler of route.ts: fetch all four sources, merge, filter,
sort, and build the envelope (per-source counts are pre-filter lengths). -/
def GETroute (p : RouteParams)
    (r1 : Except String (List RemoteOKRecord))
    (r2 : Except String (List RemotiveRecord))
    (r3 : Except String (List ArbeitnowRecord))
    (r4 : Except String (Option (List JobicyRecord))) : Envelope :=
  let remoteok := fetchRemoteOK r1
  let remotive := fetchRemotive r2
  let arbeitnow := fetchArbeitnow r3
  let jobicy := fetchJobicy r4
  let allJobs := remoteok ++ remotive ++ arbeitnow ++ jobicy
  let jobs := routePipeline p allJobs
  { jobs := jobs
    total := jobs.length
    sources := ⟨remoteok.length, remotive.length, arbeitnow.length, jobicy.length⟩ }

/-! ### The try/catch route variant (the file with `Promise.allSettled` and
the degraded error envelope) -/

/-- The four settled adapter promises: `.ok` is a fulfilled promise carrying
the job list of that adapter, `.error` a rejected one. -/
structure SettledResults where
  remoteok : Except String (List Job)
  remotive : Except String (List Job)
  arbeitnow : Except String (List Job)
  jobicy : Except String (List Job)
  deriving Repr

/-- Jobs contributed by one settled promise: a rejected adapter contributes
nothing (`forEach` only reads fulfilled results). -/
def settledJobs : Except String (List Job) → List Job
  | .ok v => v
  | .error _ => []

/-- The try-branch of the `GET` of the variant: accumulate fulfilled results and
their counts, sort in place, build the envelope. -/
def GETvariantCore (rs : SettledResults) : Envelope :=
  let allJobs := settledJobs rs.remoteok ++ settledJobs rs.remotive ++
    settledJobs rs.arbeitnow ++ settledJobs rs.jobicy
  let sorted := sortJobs allJobs
  { jobs := sorted
    total := sorted.length
    sources := ⟨(settledJobs rs.remoteok).length, (settledJobs rs.remotive).length,
      (settledJobs rs.arbeitnow).length, (settledJobs rs.jobicy).length⟩ }

/-- The degraded envelope of the catch-branch. -/
def degradedEnvelope : Envelope :=
  { jobs := []
    total := 0
    sources := ⟨0, 0, 0, 0⟩
    error := some "Failed to fetch jobs" }

/-- The `GET` handler of the variant with its surrounding try/catch: `.error`
models an unexpected error thrown anywhere in the try block. -/
def GETvariant : Except String SettledResults → Envelope
  | .ok rs => GETvariantCore rs
  | .error _ => degradedEnvelope

/-! ### The unfiltered route variant (merge + sort only, no filters) -/

/-- The `GET` handler of the no-filter variant: concatenate the four adapter
results, sort by recency, build the envelope. -/
def GETnofilter (remoteok remotive arbeitnow jobicy : List Job) : Envelope :=
  let allJobs := remoteok ++ remotive ++ arbeitnow ++ jobicy
  let sorted := sortJobs allJobs
  { jobs := sorted
    total := sorted.length
    sources := ⟨remoteok.length, remotive.length, arbeitnow.length, jobicy.length⟩ }

/-! ### The client-side filter pipeline (`filteredJobs` of the presentation
variant with the `dataOnly` toggle) -/

/-- Data-related keywords of the client variant. -/
def DATA_KEYWORDS_client : List String :=
  ["data", "analyst", "analytics", "scientist", "science",
   "sql", "python", "tableau", "power bi", "excel", "statistics",
   "machine learning", "ml", "ai", "database", "etl", "bi",
   "business intelligence", "visualization", "reporting", "insights",
   "engineer", "warehouse", "pipeline", "spark", "hadoop"]

/-- Senior indicators of the client variant. -/
def SENIOR_KEYWORDS_client : List String :=
  ["senior", "sr.", "sr ", "lead", "principal", "staff", "manager",
   "director", "head of", "vp", "chief", "architect"]

/-- Models `s.trim()`: strip leading and trailing whitespace (the client
code only tests the result for non-blankness). -/
def jsTrim (s : String) : String :=
  String.mk (((s.data.dropWhile Char.isWhitespace).reverse.dropWhile Char.isWhitespace).reverse)

/-- Client-side filter state: search inputs, source select, toggles. -/
structure ClientParams where
  query : String
  location : String
  source : String
  dataOnly : Bool
  entryOnly : Bool
  deriving DecidableEq, Repr

/-- The client data-role predicate: keyword scan over lower-cased
`title + " " + tags.join(" ")`. -/
def clientDataPred (job : Job) : Bool :=
  let text := lowerStr (job.title ++ " " ++ String.intercalate " " job.tags)
  DATA_KEYWORDS_client.any (fun kw => jsIncludes text kw)

/-- The client entry-level predicate: no senior keyword in the title. -/
def clientEntryPred (job : Job) : Bool :=
  !(SENIOR_KEYWORDS_client.any (fun kw => jsIncludes (lowerStr job.title) kw))

/-- The client search predicate over title, company and tags. -/
def clientQueryPred (q : String) (job : Job) : Bool :=
  jsIncludes (lowerStr job.title) q ||
  jsIncludes (lowerStr job.company) q ||
  job.tags.any (fun tag => jsIncludes (lowerStr tag) q)

/-- `filteredJobs` of the client variant: every stage is guarded by its
toggle / non-blank input, applied as a sequential AND-chain. -/
def filteredJobsClient (p : ClientParams) (allJobs : List Job) : List Job :=
  let jobs := allJobs
  let jobs := if p.dataOnly then jobs.filter clientDataPred else jobs
  let jobs := if p.entryOnly then jobs.filter clientEntryPred else jobs
  let jobs := if jsTrim p.query ≠ "" then jobs.filter (clientQueryPred (lowerStr p.query)) else jobs
  let jobs := if jsTrim p.location ≠ "" then
      jobs.filter (fun job => jsIncludes (lowerStr job.location) (lowerStr p.location))
    else jobs
  let jobs := if p.source ≠ "" then jobs.filter (fun job => job.source == p.source) else jobs
  jobs

/-- The same pipeline with the data-role stage removed (the behaviour the
spec ascribes to an inactive `dataOnly` toggle). -/
def filteredJobsClientNoData (p : ClientParams) (allJobs : List Job) : List Job :=
  let jobs := allJobs
  let jobs := if p.entryOnly then jobs.filter clientEntryPred else jobs
  let jobs := if jsTrim p.query ≠ "" then jobs.filter (clientQueryPred (lowerStr p.query)) else jobs
  let jobs := if jsTrim p.location ≠ "" then
      jobs.filter (fun job => jsIncludes (lowerStr job.location) (lowerStr p.location))
    else jobs
  let jobs := if p.source ≠ "" then jobs.filter (fun job => job.source == p.source) else jobs
  jobs

/-! ### Stage-list view of the filter chain of the route (for the commutation
and idempotence claims) -/

/-- Apply a list of filter stages left to right. -/
def applyStages (ps : List (Job → Bool)) (l : List Job) : List Job :=
  ps.foldl (fun acc pr => acc.filter pr) l

/-- The active filter stages of the chain of the route, in source order:
data-role (unconditional), entry-level, query, location, source. -/
def routeStages (p : RouteParams) : List (Job → Bool) :=
  [fun job => isDataRole job] ++
  (if entryOnly p then [fun job => isEntryLevel job] else []) ++
  (if routeQuery p ≠ "" then [queryStage (routeQuery p)] else []) ++
  (if routeLocation p ≠ "" then [locationStage (routeLocation p)] else []) ++
  (if routeSource p ≠ "" then [sourceStage (routeSource p)] else [])

/-! ### Generic lemmas about the stable sort -/

theorem mem_stableInsert {α} (le : α → α → Bool) (x a : α) (l : List α) :
    a ∈ stableInsert le x l ↔ a = x ∨ a ∈ l := by
  induction l with
  | nil => simp [stableInsert]
  | cons y ys ih =>
    cases h : le x y with
    | true => simp [stableInsert, h]
    | false =>
      simp only [stableInsert, h, Bool.false_eq_true, if_false, List.mem_cons, ih]
      tauto

theorem mem_stableSort {α} (le : α → α → Bool) (a : α) (l : List α) :
    a ∈ stableSort le l ↔ a ∈ l := by
  induction l with
  | nil => simp [stableSort]
  | cons x xs ih => simp [stableSort, mem_stableInsert, ih]

theorem chain'_stableInsert {α} (le : α → α → Bool)
    (htot : ∀ a b, le a b = true ∨ le b a = true) (x : α) (l : List α)
    (h : l.Chain' (fun a b => le a b = true)) :
    (stableInsert le x l).Chain' (fun a b => le a b = true) := by
  induction l with
  | nil => simp [stableInsert]
  | cons y ys ih =>
    cases hxy : le x y with
    | true =>
      simp only [stableInsert, hxy, if_true]
      exact List.chain'_cons.mpr ⟨hxy, h⟩
    | false =>
      have hyx : le y x = true := by
        rcases htot x y with h' | h'
        · rw [hxy] at h'; cases h'
        · exact h'
      simp only [stableInsert, hxy, Bool.false_eq_true, if_false]
      rw [List.chain'_cons']
      refine ⟨?_, ih h.tail⟩
      intro z hz
      cases ys with
      | nil =>
        simp [stableInsert] at hz
        rw [← hz]; exact hyx
      | cons w ws =>
        cases hxw : le x w with
        | true =>
          simp [stableInsert, hxw] at hz
          rw [← hz]; exact hyx
        | false =>
          simp [stableInsert, hxw] at hz
          rw [← hz]; exact (List.chain'_cons.mp h).1

theorem chain'_stableSort {α} (le : α → α → Bool)
    (htot : ∀ a b, le a b = true ∨ le b a = true) (l : List α) :
    (stableSort le l).Chain' (fun a b => le a b = true) := by
  induction l with
  | nil => simp [stableSort]
  | cons x xs ih => exact chain'_stableInsert le htot x _ ih

theorem stableSort_of_chain' {α} (le : α → α → Bool) (l : List α)
    (h : l.Chain' (fun a b => le a b = true)) : stableSort le l = l := by
  induction l with
  | nil => rfl
  | cons x xs ih =>
    rw [stableSort, ih h.tail]
    cases xs with
    | nil => rfl
    | cons y ys =>
      have hxy : le x y = true := (List.chain'_cons.mp h).1
      simp [stableInsert, hxy]

theorem stableSort_idem {α} (le : α → α → Bool)
    (htot : ∀ a b, le a b = true ∨ le b a = true) (l : List α) :
    stableSort le (stableSort le l) = stableSort le l :=
  stableSort_of_chain' le _ (chain'_stableSort le htot l)

/-- The comparator-derived order of the route is total: for every pair at least
one direction is allowed (`cmp(a,b) <= 0` or `cmp(b,a) <= 0`). -/
theorem jsSortLe_total (a b : Job) : jsSortLe a b = true ∨ jsSortLe b a = true := by
  unfold jsSortLe jsCmp
  rcases a.posted with _ | x <;> rcases b.posted with _ | y <;> simp
  omega

theorem sortJobs_idem (l : List Job) : sortJobs (sortJobs l) = sortJobs l :=
  stableSort_idem jsSortLe jsSortLe_total l

theorem mem_sortJobs (a : Job) (l : List Job) : a ∈ sortJobs l ↔ a ∈ l :=
  mem_stableSort jsSortLe a l

/-! ### The filter chain of the route as a single filter -/

theorem applyStages_eq_filter (ps : List (Job → Bool)) (l : List Job) :
    applyStages ps l = l.filter (fun j => ps.all (fun pr => pr j)) := by
  induction ps generalizing l with
  | nil => simp [applyStages]
  | cons p ps ih =>
    have h1 : applyStages (p :: ps) l = applyStages ps (l.filter p) := rfl
    rw [h1, ih, List.filter_filter]
    apply List.filter_congr
    intro a _
    simp [Bool.and_comm]

theorem perm_all_eq {α} {l₁ l₂ : List α} (h : l₁.Perm l₂) (f : α → Bool) :
    l₁.all f = l₂.all f := by
  induction h with
  | nil => rfl
  | cons x _ ih => simp [List.all_cons, ih]
  | swap x y l => simp [List.all_cons]; rw [← Bool.and_assoc, ← Bool.and_assoc, Bool.and_comm (f y) (f x)]
  | trans _ _ ih₁ ih₂ => rw [ih₁, ih₂]

theorem routeFilteredPreSort_eq_applyStages (p : RouteParams) (l : List Job) :
    routeFilteredPreSort p l = applyStages (routeStages p) l := by
  by_cases h1 : entryOnly p <;>
    by_cases h2 : routeQuery p ≠ "" <;>
      by_cases h3 : routeLocation p ≠ "" <;>
        by_cases h4 : routeSource p ≠ "" <;>
          simp [routeFilteredPreSort, routeStages, applyStages, h1, h2, h3, h4]

theorem routeFilteredPreSort_eq_filter (p : RouteParams) (l : List Job) :
    routeFilteredPreSort p l =
      l.filter (fun j => (routeStages p).all (fun pr => pr j)) := by
  rw [routeFilteredPreSort_eq_applyStages, applyStages_eq_filter]

/-! ### String helpers for the adapter field guarantees -/

theorem str_append_ne_empty (s t : String) (hs : s.data ≠ []) : s ++ t ≠ "" := by
  intro he
  have hd := congrArg String.data he
  rw [String.data_append] at hd
  simp at hd
  exact hs hd.1

theorem orDefault_ne_empty (s d : String) (hd : d ≠ "") : orDefault s d ≠ "" := by
  unfold orDefault
  split
  · exact hd
  · assumption

/-- On a fully-dated list, an adjacent `cmp(a,b) <= 0` chain is exactly a
descending chain of `posted` values. -/
theorem chain_desc_of_dated :
    ∀ m : List Job, m.Chain' (fun a b => jsSortLe a b = true) →
      (∀ j ∈ m, j.posted ≠ none) →
      m.Chain' (fun a b => b.posted.getD 0 ≤ a.posted.getD 0) := by
  intro m
  induction m with
  | nil => intro _ _; simp
  | cons x xs ih =>
    intro h hd
    cases xs with
    | nil => simp
    | cons y ys =>
      rw [List.chain'_cons] at h ⊢
      refine ⟨?_, ih h.2 (fun j hj => hd j (List.mem_cons_of_mem _ hj))⟩
      have hx := hd x (by simp)
      have hy := hd y (by simp)
      rcases hxv : x.posted with _ | a
      · exact absurd hxv hx
      · rcases hyv : y.posted with _ | b
        · exact absurd hyv hy
        · have h1 := h.1
          unfold jsSortLe jsCmp at h1
          rw [hxv, hyv] at h1
          simp [hxv, hyv]
          simp at h1
          omega

/-- Every job in the merged pre-filter collection carries the display name
of the adapter that produced it. -/
theorem source_of_merged (r1 : Except String (List RemoteOKRecord))
    (r2 : Except String (List RemotiveRecord))
    (r3 : Except String (List ArbeitnowRecord))
    (r4 : Except String (Option (List JobicyRecord))) :
    ∀ j ∈ fetchRemoteOK r1 ++ fetchRemotive r2 ++ fetchArbeitnow r3 ++ fetchJobicy r4,
      j.source = "RemoteOK" ∨ j.source = "Remotive" ∨
      j.source = "Arbeitnow" ∨ j.source = "Jobicy" := by
  intro j hj
  simp only [List.mem_append] at hj
  rcases hj with ((h | h) | h) | h
  · left
    cases r1 with
    | error e => simp [fetchRemoteOK] at h
    | ok data =>
      simp only [fetchRemoteOK, List.mem_map] at h
      obtain ⟨r, _, rfl⟩ := h
      rfl
  · right; left
    cases r2 with
    | error e => simp [fetchRemotive] at h
    | ok data =>
      simp only [fetchRemotive, List.mem_map] at h
      obtain ⟨r, _, rfl⟩ := h
      rfl
  · right; right; left
    cases r3 with
    | error e => simp [fetchArbeitnow] at h
    | ok data =>
      simp only [fetchArbeitnow, List.mem_map] at h
      obtain ⟨r, _, rfl⟩ := h
      rfl
  · right; right; right
    cases r4 with
    | error e => simp [fetchJobicy] at h
    | ok data =>
      cases data with
      | none => simp [fetchJobicy] at h
      | some jobs =>
        simp only [fetchJobicy, List.mem_map] at h
        obtain ⟨r, _, rfl⟩ := h
        rfl

/-- Unfolding of the response fields of the route handler. -/
theorem GETroute_jobs (p : RouteParams) (r1 : Except String (List RemoteOKRecord))
    (r2 : Except String (List RemotiveRecord))
    (r3 : Except String (List ArbeitnowRecord))
    (r4 : Except String (Option (List JobicyRecord))) :
    (GETroute p r1 r2 r3 r4).jobs =
      sortJobs (routeFilteredPreSort p
        (fetchRemoteOK r1 ++ fetchRemotive r2 ++ fetchArbeitnow r3 ++ fetchJobicy r4)) := by
  simp [GETroute, routePipeline]

/-- A job surviving the filter chain of the route passed the unconditional
data-role stage. -/
theorem all_routeStages_data {p : RouteParams} {j : Job}
    (hall : (routeStages p).all (fun pr => pr j) = true) : isDataRole j = true := by
  simp only [routeStages, List.all_append, Bool.and_eq_true] at hall
  have h := hall.1.1.1.1
  simp only [List.all_cons, List.all_nil, Bool.and_true] at h
  exact h

/-- With an active `source` parameter, a job surviving the filter
chain has exactly that source (case-sensitive `===`). -/
theorem all_routeStages_source {p : RouteParams} {j : Job}
    (hne : routeSource p ≠ "")
    (hall : (routeStages p).all (fun pr => pr j) = true) :
    j.source = routeSource p := by
  simp only [routeStages, List.all_append, Bool.and_eq_true] at hall
  have h := hall.2
  rw [if_pos hne] at h
  simp only [List.all_cons, List.all_nil, Bool.and_true] at h
  unfold sourceStage at h
  exact eq_of_beq h

/-! ### Value-level refinement of the query route (the error path)

The coarse embedding above follows the `Job` interface and treats every
string field as a string, which is faithful wherever the code reads a field
through `||` or where an adapter supplies a default. It is not faithful to
the error path: route.ts `GET` has no try/catch, and `fetchRemotive`,
`fetchArbeitnow` and `fetchJobicy` copy `title`/`company`/`url` verbatim, so
an upstream record with an absent field produces a Job whose field is
`undefined` at runtime — and `isDataRole` (route.ts line 39) then evaluates
`job.title.toLowerCase()`, a thrown TypeError that propagates out of the
handler as a transport-level failure, not a degraded envelope.

The refinement below makes that observable: verbatim-copied fields are
`Option String` (`none` = `undefined`), calling `toLowerCase` on `none`
throws, a thrown error aborts `Array.prototype.filter` at the first
offending element (predicates are evaluated left to right), and the handler
returns `Except`: `.ok` an envelope, `.error` an uncaught exception. Fields
the route pipeline reads only through defaults (`location`) or optional
chaining (`type`, `tags`) stay total exactly as in the source. -/

/-- The thrown TypeError of `undefined.toLowerCase()`. -/
def undefinedLowerMsg : String := "TypeError: toLowerCase of undefined"

/-- Runtime Job value as route.ts actually produces it: the fields that
some adapters copy verbatim (`title`, `company`, `url`) may be `undefined`. -/
structure JobV where
  id : String
  title : Option String
  company : Option String
  location : String
  type : Option String
  salary : Option String
  url : Option String
  source : String
  posted : Option Int
  tags : List String
  deriving DecidableEq, Repr

/-- Response envelope over runtime Job values. -/
structure EnvelopeV where
  jobs : List JobV
  total : Nat
  sources : SourceCounts
  error : Option String := none
  deriving DecidableEq, Repr

/-- Upstream Remotive record with presence of the verbatim-copied fields
tracked. -/
structure RemotiveRecordV where
  id : String
  title : Option String
  company_name : Option String
  candidate_required_location : String
  job_type : Option String
  salary : String
  url : Option String
  publication_date : Option Int
  tags : Option (List String)
  deriving DecidableEq, Repr

/-- Upstream Arbeitnow record with presence of the verbatim-copied fields
tracked. -/
structure ArbeitnowRecordV where
  slug : String
  title : Option String
  company_name : Option String
  location : String
  remote : Bool
  url : Option String
  created_at : Option Int
  tags : Option (List String)
  deriving DecidableEq, Repr

/-- Upstream Jobicy record with presence of the verbatim-copied fields
tracked. -/
structure JobicyRecordV where
  id : String
  jobTitle : Option String
  companyName : Option String
  jobGeo : String
  jobType : Option String
  annualSalaryMin : Option Nat
  annualSalaryMax : Option Nat
  url : Option String
  pubDate : Option Int
  jobIndustry : String
  deriving DecidableEq, Repr

/-- RemoteOK mapping at value level: every `||` default makes the produced
fields defined. -/
def remoteOKMapV (j : RemoteOKRecord) : JobV :=
  { id := "remoteok-" ++ j.id
    title := some (orDefault j.position "Unknown")
    company := some (orDefault j.company "Unknown")
    location := orDefault j.location "Remote"
    type := none
    salary := if truthyNum j.salary_min && truthyNum j.salary_max then
        some ("$" ++ toString ((j.salary_min).getD 0) ++ "-" ++ toString ((j.salary_max).getD 0))
      else none
    url := some (orDefault j.url ("https://remoteok.com/l/" ++ j.id))
    source := "RemoteOK"
    posted := j.date
    tags := j.tags.getD [] }

/-- Remotive mapping at value level: `title`, `company`, `url` are verbatim
copies that stay `undefined` when upstream omits them. -/
def remotiveMapV (j : RemotiveRecordV) : JobV :=
  { id := "remotive-" ++ j.id
    title := j.title
    company := j.company_name
    location := orDefault j.candidate_required_location "Remote"
    type := j.job_type
    salary := if j.salary = "" then none else some j.salary
    url := j.url
    source := "Remotive"
    posted := j.publication_date
    tags := j.tags.getD [] }

/-- Arbeitnow mapping at value level: `title`, `company`, `url` verbatim. -/
def arbeitnowMapV (j : ArbeitnowRecordV) : JobV :=
  { id := "arbeitnow-" ++ j.slug
    title := j.title
    company := j.company_name
    location := orDefault j.location "Remote"
    type := some (if j.remote then "Remote" else "On-site")
    salary := none
    url := j.url
    source := "Arbeitnow"
    posted := j.created_at
    tags := j.tags.getD [] }

/-- Jobicy mapping at value level: `title`, `company`, `url` verbatim. -/
def jobicyMapV (j : JobicyRecordV) : JobV :=
  { id := "jobicy-" ++ j.id
    title := j.jobTitle
    company := j.companyName
    location := orDefault j.jobGeo "Remote"
    type := j.jobType
    salary := if truthyNum j.annualSalaryMin && truthyNum j.annualSalaryMax then
        some ("$" ++ toString ((j.annualSalaryMin).getD 0) ++ "-" ++ toString ((j.annualSalaryMax).getD 0))
      else none
    url := j.url
    source := "Jobicy"
    posted := j.pubDate
    tags := if j.jobIndustry ≠ "" then [j.jobIndustry] else [] }

/-- `fetchRemoteOK` at value level. -/
def fetchRemoteOKV : Except String (List RemoteOKRecord) → List JobV
  | .error _ => []
  | .ok data => ((data.drop 1).take 99).map remoteOKMapV

/-- `fetchRemotive` at value level. -/
def fetchRemotiveV : Except String (List RemotiveRecordV) → List JobV
  | .error _ => []
  | .ok data => data.map remotiveMapV

/-- `fetchArbeitnow` at value level. -/
def fetchArbeitnowV : Except String (List ArbeitnowRecordV) → List JobV
  | .error _ => []
  | .ok data => (data.take 100).map arbeitnowMapV

/-- `fetchJobicy` at value level. -/
def fetchJobicyV : Except String (Option (List JobicyRecordV)) → List JobV
  | .error _ => []
  | .ok none => []
  | .ok (some jobs) => jobs.map jobicyMapV

/-- `isDataRole` at value level: `job.title.toLowerCase()` throws when
`title` is `undefined`; otherwise the same keyword scan as `isDataRole`. -/
def isDataRoleV (j : JobV) : Except String Bool :=
  match j.title with
  | none => .error undefinedLowerMsg
  | some t =>
      let combined := lowerStr t ++ " " ++ String.intercalate " " (j.tags.map lowerStr)
      .ok (DATA_KEYWORDS.any (fun keyword => jsIncludes combined keyword))

/-- `isEntryLevel` at value level: throws on an `undefined` title; the
`type` field is read through optional chaining and never throws. -/
def isEntryLevelV (j : JobV) : Except String Bool :=
  match j.title with
  | none => .error undefinedLowerMsg
  | some t =>
      let combined := lowerStr t ++ " " ++ lowerStr (j.type.getD "")
      if SENIOR_KEYWORDS.any (fun keyword => jsIncludes combined keyword) then
        .ok false
      else
        .ok ((ENTRY_LEVEL_KEYWORDS.any (fun keyword => jsIncludes combined keyword)) ||
          (!(SENIOR_KEYWORDS.any (fun keyword => jsIncludes combined keyword)) &&
            !(jsIncludes combined "mid") && !(jsIncludes combined "intermediate")))

/-- The query predicate at value level, with the short-circuit of `||`:
`company.toLowerCase()` is only reached (and only throws) when the title
did not match. -/
def queryStageV (q : String) (j : JobV) : Except String Bool :=
  match j.title with
  | none => .error undefinedLowerMsg
  | some t =>
      if jsIncludes (lowerStr t) q then .ok true
      else
        match j.company with
        | none => .error undefinedLowerMsg
        | some c =>
            .ok (jsIncludes (lowerStr c) q ||
              j.tags.any (fun tag => jsIncludes (lowerStr tag) q))

/-- `Array.prototype.filter` with a throwing predicate: elements are tested
left to right and the first thrown error aborts the whole call. -/
def filterM {α} (p : α → Except String Bool) : List α → Except String (List α)
  | [] => .ok []
  | x :: xs =>
      match p x with
      | .error e => .error e
      | .ok b =>
          match filterM p xs with
          | .error e => .error e
          | .ok rest => .ok (if b then x :: rest else rest)

/-- The comparator at value level (reads only `posted`, never throws). -/
def jsCmpV (a b : JobV) : Int :=
  match a.posted, b.posted with
  | some x, some y => y - x
  | _, _ => 0

/-- Sort order at value level. -/
def jsSortLeV (a b : JobV) : Bool :=
  jsCmpV a b ≤ 0

/-- The recency sort at value level. -/
def sortJobsV (l : List JobV) : List JobV :=
  stableSort jsSortLeV l

/-- The filter chain of route.ts at value level: a thrown TypeError in any
stage propagates (there is no try/catch around it); the location and source
stages read fields that are always defined. -/
def routeFilteredPreSortV (p : RouteParams) (allJobs : List JobV) : Except String (List JobV) :=
  match filterM isDataRoleV allJobs with
  | .error e => .error e
  | .ok jobs =>
      match (if entryOnly p then filterM isEntryLevelV jobs else Except.ok jobs) with
      | .error e => .error e
      | .ok jobs =>
          match (if routeQuery p ≠ "" then filterM (queryStageV (routeQuery p)) jobs
              else Except.ok jobs) with
          | .error e => .error e
          | .ok jobs =>
              let jobs := if routeLocation p ≠ "" then
                  jobs.filter (fun job => jsIncludes (lowerStr job.location) (routeLocation p))
                else jobs
              let jobs := if routeSource p ≠ "" then
                  jobs.filter (fun job => job.source == routeSource p)
                else jobs
              .ok jobs

/-- The route.ts `GET` handler at value level: with no try/catch, a thrown
error surfaces as `.error` (a transport-level failure) instead of an
envelope. -/
def GETrouteV (p : RouteParams)
    (r1 : Except String (List RemoteOKRecord))
    (r2 : Except String (List RemotiveRecordV))
    (r3 : Except String (List ArbeitnowRecordV))
    (r4 : Except String (Option (List JobicyRecordV))) : Except String EnvelopeV :=
  let remoteok := fetchRemoteOKV r1
  let remotive := fetchRemotiveV r2
  let arbeitnow := fetchArbeitnowV r3
  let jobicy := fetchJobicyV r4
  let allJobs := remoteok ++ remotive ++ arbeitnow ++ jobicy
  match routeFilteredPreSortV p allJobs with
  | .error e => .error e
  | .ok filtered =>
      let sorted := sortJobsV filtered
      .ok { jobs := sorted
            total := sorted.length
            sources := ⟨remoteok.length, remotive.length, arbeitnow.length, jobicy.length⟩ }

/-- `isDataRoleV` throws exactly on an `undefined` title. -/
theorem isDataRoleV_title_none {j : JobV} (h : j.title = none) :
    isDataRoleV j = .error undefinedLowerMsg := by
  simp [isDataRoleV, h]

/-- The only error `isDataRoleV` can throw is the TypeError. -/
theorem isDataRoleV_error_msg {j : JobV} {e : String}
    (h : isDataRoleV j = .error e) : e = undefinedLowerMsg := by
  rcases ht : j.title with _ | t
  · rw [isDataRoleV_title_none ht] at h
    injection h with h'
    exact h'.symm
  · simp [isDataRoleV, ht] at h

/-- `isDataRoleV` succeeds on every job with a defined title. -/
theorem isDataRoleV_ok {j : JobV} (h : j.title ≠ none) :
    ∃ b, isDataRoleV j = .ok b := by
  rcases ht : j.title with _ | t
  · exact absurd ht h
  · simp only [isDataRoleV, ht]
    exact ⟨_, rfl⟩

/-- `isEntryLevelV` succeeds on every job with a defined title. -/
theorem isEntryLevelV_ok {j : JobV} (h : j.title ≠ none) :
    ∃ b, isEntryLevelV j = .ok b := by
  rcases ht : j.title with _ | t
  · exact absurd ht h
  · simp only [isEntryLevelV, ht]
    split
    · exact ⟨_, rfl⟩
    · exact ⟨_, rfl⟩

/-- `queryStageV` succeeds on every job with defined title and company. -/
theorem queryStageV_ok {q : String} {j : JobV}
    (ht : j.title ≠ none) (hc : j.company ≠ none) :
    ∃ b, queryStageV q j = .ok b := by
  rcases hti : j.title with _ | t
  · exact absurd hti ht
  · rcases hci : j.company with _ | c
    · exact absurd hci hc
    · cases hq : jsIncludes (lowerStr t) q with
      | true =>
        simp only [queryStageV, hti, hq, if_true]
        exact ⟨_, rfl⟩
      | false =>
        simp only [queryStageV, hti, hci, hq, Bool.false_eq_true, if_false]
        exact ⟨_, rfl⟩

/-- A predicate that throws on some element (and can only throw one message)
makes the whole filter throw that message. -/
theorem filterM_error_of_mem {α} {p : α → Except String Bool} {msg : String} :
    ∀ l : List α, (∀ x ∈ l, ∀ e, p x = .error e → e = msg) →
      (∃ x ∈ l, ∃ e, p x = .error e) → filterM p l = .error msg := by
  intro l
  induction l with
  | nil => intro _ hex; simp at hex
  | cons x xs ih =>
    intro hconst hex
    cases hpx : p x with
    | error e =>
      have hm := hconst x (by simp) e hpx
      simp [filterM, hpx, hm]
    | ok b =>
      have hex' : ∃ y ∈ xs, ∃ e, p y = .error e := by
        rcases hex with ⟨y, hy, e, he⟩
        rcases List.mem_cons.mp hy with rfl | hy'
        · rw [hpx] at he; cases he
        · exact ⟨y, hy', e, he⟩
      have hrec := ih (fun z hz e he => hconst z (List.mem_cons_of_mem _ hz) e he) hex'
      simp [filterM, hpx, hrec]

/-- A predicate that succeeds on every element makes the filter succeed,
with the result a sublist of the input. -/
theorem filterM_ok_of_forall {α} {p : α → Except String Bool} :
    ∀ l : List α, (∀ x ∈ l, ∃ b, p x = .ok b) →
      ∃ m, filterM p l = .ok m ∧ ∀ x ∈ m, x ∈ l := by
  intro l
  induction l with
  | nil => intro _; exact ⟨[], rfl, by simp⟩
  | cons x xs ih =>
    intro h
    obtain ⟨b, hb⟩ := h x (by simp)
    obtain ⟨m, hm, hsub⟩ := ih (fun z hz => h z (List.mem_cons_of_mem _ hz))
    cases b with
    | true =>
      refine ⟨x :: m, by simp [filterM, hb, hm], ?_⟩
      intro z hz
      rcases List.mem_cons.mp hz with rfl | hz'
      · exact List.mem_cons_self _ _
      · exact List.mem_cons_of_mem _ (hsub z hz')
    | false =>
      refine ⟨m, by simp [filterM, hb, hm], ?_⟩
      intro z hz
      exact List.mem_cons_of_mem _ (hsub z hz)

/-- An `undefined` title anywhere in the merged collection makes the filter
chain throw the TypeError. -/
theorem routeFilteredPreSortV_error (p : RouteParams) (l : List JobV)
    (hex : ∃ j ∈ l, j.title = none) :
    routeFilteredPreSortV p l = .error undefinedLowerMsg := by
  have h1 : filterM isDataRoleV l = .error undefinedLowerMsg := by
    apply filterM_error_of_mem
    · intro x _ e he
      exact isDataRoleV_error_msg he
    · rcases hex with ⟨j, hj, ht⟩
      exact ⟨j, hj, _, isDataRoleV_title_none ht⟩
  simp [routeFilteredPreSortV, h1]

/-- With every merged job carrying defined title and company, the filter
chain completes. -/
theorem routeFilteredPreSortV_ok (p : RouteParams) (l : List JobV)
    (h : ∀ j ∈ l, j.title ≠ none ∧ j.company ≠ none) :
    ∃ m, routeFilteredPreSortV p l = .ok m := by
  obtain ⟨m1, hm1, hsub1⟩ :=
    @filterM_ok_of_forall JobV isDataRoleV l (fun x hx => isDataRoleV_ok (h x hx).1)
  have h1 : ∀ j ∈ m1, j.title ≠ none ∧ j.company ≠ none := fun j hj => h j (hsub1 j hj)
  obtain ⟨m2, hm2, hsub2⟩ :
      ∃ m2, (if entryOnly p then filterM isEntryLevelV m1 else Except.ok m1) = .ok m2 ∧
        ∀ x ∈ m2, x ∈ m1 := by
    cases hE : entryOnly p with
    | true =>
      simp only [hE, if_true]
      exact @filterM_ok_of_forall JobV isEntryLevelV m1 (fun x hx => isEntryLevelV_ok (h1 x hx).1)
    | false =>
      simp only [hE, Bool.false_eq_true, if_false]
      exact ⟨m1, rfl, fun x hx => hx⟩
  have h2 : ∀ j ∈ m2, j.title ≠ none ∧ j.company ≠ none := fun j hj => h1 j (hsub2 j hj)
  obtain ⟨m3, hm3, _⟩ :
      ∃ m3, (if routeQuery p ≠ "" then filterM (queryStageV (routeQuery p)) m2
          else Except.ok m2) = .ok m3 ∧ ∀ x ∈ m3, x ∈ m2 := by
    by_cases hq : routeQuery p ≠ ""
    · simp only [if_pos hq]
      exact @filterM_ok_of_forall JobV (queryStageV (routeQuery p)) m2
        (fun x hx => queryStageV_ok (h2 x hx).1 (h2 x hx).2)
    · simp only [if_neg hq]
      exact ⟨m2, rfl, fun x hx => hx⟩
  have hfin : routeFilteredPreSortV p l = Except.ok
      (let jobs4 := if routeLocation p ≠ "" then
          m3.filter (fun job => jsIncludes (lowerStr job.location) (routeLocation p))
        else m3;
       if routeSource p ≠ "" then jobs4.filter (fun job => job.source == routeSource p)
       else jobs4) := by
    simp only [routeFilteredPreSortV, hm1, hm2, hm3]
  exact ⟨_, hfin⟩

/-! ## The claims -/

/-- Claim C1 counterexample: the query handler of route.ts has no try/catch.
At a concrete request in which one adapter contributes a job whose verbatim
copied title is absent, the unconditional data-role filter evaluates
`undefined.toLowerCase()`: the handler raises the TypeError at transport
level and returns no envelope at all — it does not degrade to the
`jobs: [], total: 0` error envelope the claim asserts. -/
theorem claim1_counterexample :
    GETrouteV ⟨none, none, none, none⟩ (.ok [])
        (.ok [⟨"3", none, some "Acme", "", none, "", some "https://x", none, none⟩])
        (.ok []) (.ok none) = .error undefinedLowerMsg ∧
    (∀ env : EnvelopeV,
        GETrouteV ⟨none, none, none, none⟩ (.ok [])
            (.ok [⟨"3", none, some "Acme", "", none, "", some "https://x", none, none⟩])
            (.ok []) (.ok none) ≠ .ok env) := by
  refine ⟨rfl, ?_⟩
  intro env h
  rw [show GETrouteV ⟨none, none, none, none⟩ (.ok [])
      (.ok [⟨"3", none, some "Acme", "", none, "", some "https://x", none, none⟩])
      (.ok []) (.ok none) = .error undefinedLowerMsg from rfl] at h
  exact Except.noConfusion h

/-- Claim C1 (amended): the try/catch route variant returns a well-formed
envelope for every request and degrades to `{ jobs: [], total: 0, sources:
all-zero, error: message }` on an unexpected error rather than raising; the
query-parameterized route builds a well-formed envelope (`total` equal to
the length of `jobs`) whenever its pipeline completes, but it has no
try/catch: whenever an adapter contributes a job whose verbatim-copied
title is absent, the unconditional data-role filter throws the TypeError
and the request raises at transport level instead of degrading, and the
pipeline does complete whenever every merged job has its title and company
defined. -/
theorem claim1_amended_envelope_or_raise :
    (∀ outcome : Except String SettledResults,
        (GETvariant outcome).total = (GETvariant outcome).jobs.length) ∧
    (∀ e : String,
        GETvariant (.error e) = degradedEnvelope ∧
        degradedEnvelope.jobs = [] ∧ degradedEnvelope.total = 0 ∧
        degradedEnvelope.sources = ⟨0, 0, 0, 0⟩ ∧
        degradedEnvelope.error = some "Failed to fetch jobs") ∧
    (∀ (p : RouteParams) r1 r2 r3 r4,
        (GETroute p r1 r2 r3 r4).total = (GETroute p r1 r2 r3 r4).jobs.length) ∧
    (∀ (p : RouteParams) r1 r2 r3 r4,
        (∃ j ∈ fetchRemoteOKV r1 ++ fetchRemotiveV r2 ++ fetchArbeitnowV r3 ++ fetchJobicyV r4,
            j.title = none) →
        GETrouteV p r1 r2 r3 r4 = .error undefinedLowerMsg) ∧
    (∀ (p : RouteParams) r1 r2 r3 r4,
        (∀ j ∈ fetchRemoteOKV r1 ++ fetchRemotiveV r2 ++ fetchArbeitnowV r3 ++ fetchJobicyV r4,
            j.title ≠ none ∧ j.company ≠ none) →
        ∃ env, GETrouteV p r1 r2 r3 r4 = .ok env ∧ env.total = env.jobs.length) := by
  refine ⟨?_, ?_, ?_, ?_, ?_⟩
  · intro outcome
    cases outcome with
    | ok rs => rfl
    | error e => rfl
  · intro e
    exact ⟨rfl, rfl, rfl, rfl, rfl⟩
  · intro p r1 r2 r3 r4
    rfl
  · intro p r1 r2 r3 r4 hex
    have hpre := routeFilteredPreSortV_error p _ hex
    simp only [GETrouteV]
    rw [hpre]
  · intro p r1 r2 r3 r4 hall
    obtain ⟨m, hm⟩ := routeFilteredPreSortV_ok p _ hall
    refine ⟨⟨sortJobsV m, (sortJobsV m).length,
      ⟨(fetchRemoteOKV r1).length, (fetchRemotiveV r2).length,
        (fetchArbeitnowV r3).length, (fetchJobicyV r4).length⟩, none⟩, ?_, rfl⟩
    simp only [GETrouteV]
    rw [hm]

/-- Claim C1 witness: the raise case at a concrete absent-title Arbeitnow
record, and the completion case at a concrete fully-defined Remotive
record, both via the amended theorem. -/
theorem claim1_amended_witness :
    GETrouteV ⟨none, none, none, none⟩ (.ok []) (.ok [])
        (.ok [⟨"s1", none, some "B", "", false, some "u", none, none⟩])
        (.ok none) = .error undefinedLowerMsg ∧
    (∃ env, GETrouteV ⟨none, none, none, none⟩ (.ok [])
        (.ok [⟨"4", some "Data Analyst", some "Acme", "", none, "", some "u", some 2, none⟩])
        (.ok []) (.ok none) = .ok env ∧ env.total = env.jobs.length) :=
  ⟨claim1_amended_envelope_or_raise.2.2.2.1 ⟨none, none, none, none⟩ (.ok []) (.ok [])
      (.ok [⟨"s1", none, some "B", "", false, some "u", none, none⟩]) (.ok none)
      (by decide),
   claim1_amended_envelope_or_raise.2.2.2.2 ⟨none, none, none, none⟩ (.ok [])
      (.ok [⟨"4", some "Data Analyst", some "Acme", "", none, "", some "u", some 2, none⟩])
      (.ok []) (.ok none) (by decide)⟩

/-- Claim C5: with all four adapters failing (modelled by all fetch outcomes
erroring, and for the allSettled variant also by all promises rejecting or
returning empty), aggregation completes and yields `total = 0` with an
all-zero `sources` map. -/
theorem claim5_all_adapters_fail_zero :
    (∀ (p : RouteParams) (e1 e2 e3 e4 : String),
        GETroute p (.error e1) (.error e2) (.error e3) (.error e4) =
          { jobs := [], total := 0, sources := ⟨0, 0, 0, 0⟩ }) ∧
    (∀ e1 e2 e3 e4 : String,
        GETvariant (.ok ⟨.error e1, .error e2, .error e3, .error e4⟩) =
          { jobs := [], total := 0, sources := ⟨0, 0, 0, 0⟩ }) ∧
    GETvariant (.ok ⟨.ok [], .ok [], .ok [], .ok []⟩) =
      { jobs := [], total := 0, sources := ⟨0, 0, 0, 0⟩ } := by
  refine ⟨?_, fun e1 e2 e3 e4 => rfl, rfl⟩
  intro p e1 e2 e3 e4
  simp [GETroute, fetchRemoteOK, fetchRemotive, fetchArbeitnow, fetchJobicy,
    routePipeline, routeFilteredPreSort_eq_filter, sortJobs, stableSort]

/-- Claim C9: in every route variant, the `total` field of the envelope equals the
length of its `jobs` array, including the degraded error envelope. -/
theorem claim9_total_matches_jobs :
    (∀ (p : RouteParams) r1 r2 r3 r4,
        (GETroute p r1 r2 r3 r4).total = (GETroute p r1 r2 r3 r4).jobs.length) ∧
    (∀ outcome : Except String SettledResults,
        (GETvariant outcome).total = (GETvariant outcome).jobs.length) ∧
    (∀ remoteok remotive arbeitnow jobicy : List Job,
        (GETnofilter remoteok remotive arbeitnow jobicy).total =
          (GETnofilter remoteok remotive arbeitnow jobicy).jobs.length) := by
  refine ⟨fun p r1 r2 r3 r4 => rfl, ?_, fun a b c d => rfl⟩
  intro outcome
  cases outcome with
  | ok rs => rfl
  | error e => rfl

/-- Claim C4: `isEntryLevel` is false whenever a seniority keyword occurs in
the lower-cased title+type text; otherwise it is true iff an explicit
entry-level keyword occurs or neither "mid" nor "intermediate" occurs; in
particular "Data Analyst" classifies entry-level and "Senior Data Engineer"
does not. -/
theorem claim4_isEntryLevel_composite :
    (∀ j : Job,
        isEntryLevel j =
          (!(SENIOR_KEYWORDS.any (fun k => jsIncludes (seniorityText j) k)) &&
            ((ENTRY_LEVEL_KEYWORDS.any (fun k => jsIncludes (seniorityText j) k)) ||
              (!(jsIncludes (seniorityText j) "mid") &&
                !(jsIncludes (seniorityText j) "intermediate"))))) ∧
    isEntryLevel ⟨"", "Data Analyst", "", "", none, none, "", "", none, []⟩ = true ∧
    isEntryLevel ⟨"", "Senior Data Engineer", "", "", none, none, "", "", none, []⟩ = false := by
  refine ⟨?_, by decide, by decide⟩
  intro j
  unfold isEntryLevel
  cases h : SENIOR_KEYWORDS.any (fun k => jsIncludes (seniorityText j) k) <;>
    simp [h, Bool.and_assoc]

/-- Claim C7: the full route pipeline (filter stages plus recency sort) is
idempotent: reapplying it with the same parameters to its own output returns
that output unchanged. -/
theorem claim7_pipeline_idempotent (p : RouteParams) (l : List Job) :
    routePipeline p (routePipeline p l) = routePipeline p l := by
  unfold routePipeline
  have hfix : routeFilteredPreSort p (sortJobs (routeFilteredPreSort p l)) =
      sortJobs (routeFilteredPreSort p l) := by
    rw [routeFilteredPreSort_eq_filter]
    apply List.filter_eq_self.mpr
    intro a ha
    rw [mem_sortJobs, routeFilteredPreSort_eq_filter, List.mem_filter] at ha
    exact ha.2
  rw [hfix, sortJobs_idem]

/-- Claim C2 counterexample: an upstream Remotive record with empty/absent
`title` and `url` passes straight through `fetchRemotive`, producing a Job
whose `title` and `url` are empty — no "Unknown" default and no synthesized
url are applied, contradicting the claimed non-emptiness of all six fields
across all four adapters. -/
theorem claim2_counterexample :
    (fetchRemotive (.ok [⟨"1", "", "", "", none, "", "", none, none⟩])).map Job.title = [""] ∧
    (fetchRemotive (.ok [⟨"1", "", "", "", none, "", "", none, none⟩])).map Job.url = [""] ∧
    (fetchRemotive (.ok [⟨"1", "", "", "", none, "", "", none, none⟩])).map Job.company = [""] := by
  exact ⟨rfl, rfl, rfl⟩

/-- Claim C2 (amended): every adapter-produced Job has non-empty `id`,
`location` and `source` (with the "Remote" location default), and
`fetchRemoteOK` additionally guarantees non-empty `title`, `company`
("Unknown" defaults) and `url` (synthesized fallback); but `fetchRemotive`,
`fetchArbeitnow` and `fetchJobicy` copy `title`, `company` and `url`
verbatim from the upstream record, so those fields are empty whenever the
upstream omits them. -/
theorem claim2_amended_adapter_fields :
    (∀ r : RemoteOKRecord,
        (remoteOKMap r).id ≠ "" ∧ (remoteOKMap r).title ≠ "" ∧
        (remoteOKMap r).company ≠ "" ∧ (remoteOKMap r).location ≠ "" ∧
        (remoteOKMap r).source ≠ "" ∧ (remoteOKMap r).url ≠ "") ∧
    (∀ r : RemotiveRecord,
        (remotiveMap r).id ≠ "" ∧ (remotiveMap r).location ≠ "" ∧
        (remotiveMap r).source ≠ "" ∧ (remotiveMap r).title = r.title ∧
        (remotiveMap r).company = r.company_name ∧ (remotiveMap r).url = r.url) ∧
    (∀ r : ArbeitnowRecord,
        (arbeitnowMap r).id ≠ "" ∧ (arbeitnowMap r).location ≠ "" ∧
        (arbeitnowMap r).source ≠ "" ∧ (arbeitnowMap r).title = r.title ∧
        (arbeitnowMap r).company = r.company_name ∧ (arbeitnowMap r).url = r.url) ∧
    (∀ r : JobicyRecord,
        (jobicyMap r).id ≠ "" ∧ (jobicyMap r).location ≠ "" ∧
        (jobicyMap r).source ≠ "" ∧ (jobicyMap r).title = r.jobTitle ∧
        (jobicyMap r).company = r.companyName ∧ (jobicyMap r).url = r.url) := by
  refine ⟨fun r => ?_, fun r => ?_, fun r => ?_, fun r => ?_⟩
  · exact ⟨str_append_ne_empty "remoteok-" r.id (by decide),
      orDefault_ne_empty _ "Unknown" (by decide),
      orDefault_ne_empty _ "Unknown" (by decide),
      orDefault_ne_empty _ "Remote" (by decide),
      by show ("RemoteOK" : String) ≠ ""; decide,
      orDefault_ne_empty _ _ (str_append_ne_empty "https://remoteok.com/l/" r.id (by decide))⟩
  · exact ⟨str_append_ne_empty "remotive-" r.id (by decide),
      orDefault_ne_empty _ "Remote" (by decide),
      by show ("Remotive" : String) ≠ ""; decide, rfl, rfl, rfl⟩
  · exact ⟨str_append_ne_empty "arbeitnow-" r.slug (by decide),
      orDefault_ne_empty _ "Remote" (by decide),
      by show ("Arbeitnow" : String) ≠ ""; decide, rfl, rfl, rfl⟩
  · exact ⟨str_append_ne_empty "jobicy-" r.id (by decide),
      orDefault_ne_empty _ "Remote" (by decide),
      by show ("Jobicy" : String) ≠ ""; decide, rfl, rfl, rfl⟩

/-- Claim C3: in any response of the query route in which every job carries
a `posted` value, adjacent jobs are in descending `posted` order; and the
comparator yields no preference (returns 0) whenever either side lacks
`posted`. -/
theorem claim3_sorted_by_recency :
    (∀ (p : RouteParams) r1 r2 r3 r4,
        (∀ j ∈ (GETroute p r1 r2 r3 r4).jobs, j.posted ≠ none) →
        ((GETroute p r1 r2 r3 r4).jobs).Chain'
          (fun a b => b.posted.getD 0 ≤ a.posted.getD 0)) ∧
    (∀ rs : SettledResults,
        (∀ j ∈ (GETvariant (.ok rs)).jobs, j.posted ≠ none) →
        ((GETvariant (.ok rs)).jobs).Chain'
          (fun a b => b.posted.getD 0 ≤ a.posted.getD 0)) ∧
    (∀ a b : Job, a.posted = none ∨ b.posted = none → jsCmp a b = 0) := by
  refine ⟨?_, ?_, ?_⟩
  · intro p r1 r2 r3 r4 hd
    rw [GETroute_jobs] at hd ⊢
    exact chain_desc_of_dated _ (chain'_stableSort jsSortLe jsSortLe_total _) hd
  · intro rs hd
    exact chain_desc_of_dated _ (chain'_stableSort jsSortLe jsSortLe_total _) hd
  · intro a b h
    rcases h with h | h
    · unfold jsCmp; rw [h]
    · unfold jsCmp; rw [h]; cases a.posted <;> rfl

/-- Claim C3 witness: a concrete fully-dated request is sorted descending,
and the comparator returns 0 on a concrete pair with a missing date. -/
theorem claim3_witness :
    ((GETroute ⟨none, none, none, none⟩ (.ok [])
        (.ok [⟨"1", "Data Analyst", "A", "", none, "", "u1", some 5, none⟩,
              ⟨"2", "Data Scientist", "B", "", none, "", "u2", some 9, none⟩])
        (.ok []) (.ok none)).jobs).Chain'
      (fun a b => b.posted.getD 0 ≤ a.posted.getD 0) ∧
    jsCmp ⟨"", "x", "", "", none, none, "", "", none, []⟩
      ⟨"", "y", "", "", none, none, "", "", some 3, []⟩ = 0 :=
  ⟨claim3_sorted_by_recency.1 ⟨none, none, none, none⟩ (.ok [])
      (.ok [⟨"1", "Data Analyst", "A", "", none, "", "u1", some 5, none⟩,
            ⟨"2", "Data Scientist", "B", "", none, "", "u2", some 9, none⟩])
      (.ok []) (.ok none) (by decide),
   claim3_sorted_by_recency.2.2 _ _ (Or.inl rfl)⟩

/-- Claim C6 counterexample: in the query-parameterized route the data-role
filter is not guarded by any toggle — a request that omits every parameter
(so `dataOnly` is certainly not enabled) still filters out a non-data job
that one adapter contributed, instead of letting it remain. -/
theorem claim6_counterexample :
    isDataRole (remotiveMap ⟨"7", "Truck Driver", "Acme", "", none, "", "https://x", none, none⟩) = false ∧
    (GETroute ⟨none, none, none, none⟩ (.ok [])
        (.ok [⟨"7", "Truck Driver", "Acme", "", none, "", "https://x", none, none⟩])
        (.ok []) (.ok none)).sources.remotive = 1 ∧
    (GETroute ⟨none, none, none, none⟩ (.ok [])
        (.ok [⟨"7", "Truck Driver", "Acme", "", none, "", "https://x", none, none⟩])
        (.ok []) (.ok none)).jobs = [] := by
  exact ⟨by decide, by decide, by decide⟩

/-- Claim C6 (amended): in the client-side pipeline each toggle stage runs
only when active — with `dataOnly` false the data-role stage is skipped
entirely (the pipeline equals the one without that stage, and with every
filter inactive the input passes through unchanged, so non-data jobs
remain); in the server route, by contrast, the `isDataRole` filter is
unconditional: there is no `dataOnly` request parameter and every job in
any response is a data role. -/
theorem claim6_amended_toggle_behaviour :
    (∀ (p : ClientParams) (jobs : List Job), p.dataOnly = false →
        filteredJobsClient p jobs = filteredJobsClientNoData p jobs) ∧
    (∀ jobs : List Job, filteredJobsClient ⟨"", "", "", false, false⟩ jobs = jobs) ∧
    (∀ (p : RouteParams) r1 r2 r3 r4 j,
        j ∈ (GETroute p r1 r2 r3 r4).jobs → isDataRole j = true) := by
  refine ⟨?_, fun jobs => rfl, ?_⟩
  · intro p jobs h
    simp [filteredJobsClient, filteredJobsClientNoData, h]
  · intro p r1 r2 r3 r4 j hj
    rw [GETroute_jobs, mem_sortJobs, routeFilteredPreSort_eq_filter,
      List.mem_filter] at hj
    exact all_routeStages_data hj.2

/-- Claim C6 witness: the skip equality at a concrete `dataOnly = false`
configuration, and the server-side data-role guarantee at a concrete
response member. -/
theorem claim6_amended_witness :
    filteredJobsClient ⟨"", "", "", false, true⟩ [] =
      filteredJobsClientNoData ⟨"", "", "", false, true⟩ [] ∧
    isDataRole (remotiveMap ⟨"9", "Data Analyst", "Acme", "", none, "", "https://y", none, none⟩) = true :=
  ⟨claim6_amended_toggle_behaviour.1 ⟨"", "", "", false, true⟩ [] rfl,
   claim6_amended_toggle_behaviour.2.2 ⟨none, none, none, none⟩ (.ok [])
      (.ok [⟨"9", "Data Analyst", "Acme", "", none, "", "https://y", none, none⟩])
      (.ok []) (.ok none) _ (by decide)⟩

/-- Claim C8: the filter stages commute — applying the active filter
predicates in any order (any permutation of the stage list) yields the same
jobs, and the filter chain of the route is exactly the staged application in
source order. -/
theorem claim8_stages_commute :
    (∀ (p : RouteParams) (l : List Job),
        routeFilteredPreSort p l = applyStages (routeStages p) l) ∧
    (∀ (p : RouteParams) (ps : List (Job → Bool)) (l : List Job),
        ps.Perm (routeStages p) → applyStages ps l = applyStages (routeStages p) l) := by
  refine ⟨routeFilteredPreSort_eq_applyStages, ?_⟩
  intro p ps l h
  rw [applyStages_eq_filter, applyStages_eq_filter]
  apply List.filter_congr
  intro a _
  exact perm_all_eq h _

/-- Claim C8 witness: swapping the data-role and entry-level stages of a
default request leaves the filtered list unchanged. -/
theorem claim8_witness :
    applyStages [fun job => isEntryLevel job, fun job => isDataRole job]
        [⟨"", "Junior Data Analyst", "", "", none, none, "", "", none, []⟩] =
      applyStages (routeStages ⟨none, none, none, none⟩)
        [⟨"", "Junior Data Analyst", "", "", none, none, "", "", none, []⟩] := by
  apply claim8_stages_commute.2
  have h : routeStages ⟨none, none, none, none⟩ =
      [fun job => isDataRole job, fun job => isEntryLevel job] := rfl
  rw [h]
  exact List.Perm.swap _ _ _

/-- Claim C10: every adapter stamps its display name ("RemoteOK",
"Remotive", "Arbeitnow", "Jobicy") on the Jobs it produces, and the `source`
query parameter is compared with `===`; hence any non-empty `source`
parameter outside that exact set (e.g. a lowercase key) yields an empty
jobs list. -/
theorem claim10_unknown_source_yields_empty :
    (∀ r : RemoteOKRecord, (remoteOKMap r).source = "RemoteOK") ∧
    (∀ r : RemotiveRecord, (remotiveMap r).source = "Remotive") ∧
    (∀ r : ArbeitnowRecord, (arbeitnowMap r).source = "Arbeitnow") ∧
    (∀ r : JobicyRecord, (jobicyMap r).source = "Jobicy") ∧
    (∀ (p : RouteParams) r1 r2 r3 r4,
        routeSource p ≠ "" →
        routeSource p ∉ (["RemoteOK", "Remotive", "Arbeitnow", "Jobicy"] : List String) →
        (GETroute p r1 r2 r3 r4).jobs = []) := by
  refine ⟨fun r => rfl, fun r => rfl, fun r => rfl, fun r => rfl, ?_⟩
  intro p r1 r2 r3 r4 hne hmem
  rw [GETroute_jobs]
  have hempty : routeFilteredPreSort p
      (fetchRemoteOK r1 ++ fetchRemotive r2 ++ fetchArbeitnow r3 ++ fetchJobicy r4) = [] := by
    rw [routeFilteredPreSort_eq_filter]
    rw [List.eq_nil_iff_forall_not_mem]
    intro j hj
    rw [List.mem_filter] at hj
    have hsrc := source_of_merged r1 r2 r3 r4 j hj.1
    have heq := all_routeStages_source hne hj.2
    rw [← heq] at hmem
    rcases hsrc with h | h | h | h <;> simp [h] at hmem
  rw [hempty]
  rfl

/-- Claim C10 witness: the lowercase internal key "remoteok" is a non-empty
source parameter outside the display-name set, and a concrete request with
a RemoteOK-contributed job returns no jobs for it. -/
theorem claim10_witness :
    (GETroute ⟨none, none, some "remoteok", none⟩
        (.ok [⟨"0", "header", "", "", none, none, "", none, none⟩,
              ⟨"5", "Data Engineer", "Acme", "", none, none, "", some 1, none⟩])
        (.ok []) (.ok []) (.ok none)).jobs = [] :=
  claim10_unknown_source_yields_empty.2.2.2.2 ⟨none, none, some "remoteok", none⟩
    (.ok [⟨"0", "header", "", "", none, none, "", none, none⟩,
          ⟨"5", "Data Engineer", "Acme", "", none, none, "", some 1, none⟩])
    (.ok []) (.ok []) (.ok none) (by decide) (by decide)

/-- Claim C2 witness: the amended field guarantees evaluated at concrete
upstream records with every string field absent. -/
theorem claim2_amended_witness :
    (remoteOKMap ⟨"", "", "", "", none, none, "", none, none⟩).title ≠ "" ∧
    (remotiveMap ⟨"", "", "", "", none, "", "", none, none⟩).location ≠ "" ∧
    (arbeitnowMap ⟨"", "", "", "", false, "", none, none⟩).source ≠ "" ∧
    (jobicyMap ⟨"", "", "", "", none, none, none, "", none, ""⟩).id ≠ "" :=
  ⟨(claim2_amended_adapter_fields.1 ⟨"", "", "", "", none, none, "", none, none⟩).2.1,
   (claim2_amended_adapter_fields.2.1 ⟨"", "", "", "", none, "", "", none, none⟩).2.1,
   (claim2_amended_adapter_fields.2.2.1 ⟨"", "", "", "", false, "", none, none⟩).2.2.1,
   (claim2_amended_adapter_fields.2.2.2 ⟨"", "", "", "", none, none, none, "", none, ""⟩).1⟩

end JobPulse
